import Mathlib

/-!
Shallow embedding of `src/fastapi/main.py` (ml-heart-disease ingestion service).

The service exposes three operations:
  * `upload_data`       — stage an uploaded payload in the object store (S3);
  * `ingest_kaggle_data`— download a dataset, stage its first CSV file, clean up;
  * `load_raw_to_db`    — pick the most recently modified staged object and
                          replace the Postgres table `heart_disease_raw` with it.

External collaborators (S3, kagglehub, the filesystem, Postgres) are modelled by
explicit state (a list of staged objects, an optional sink table) plus
fault-injection parameters: each external call is represented by an
`Except String _` argument or an `Option String` fault whose `some msg` means the
call raised an exception with message `msg`.  Python's `try/except` blocks are
mirrored exactly: an exception raised by a step outside the `try` block
propagates as `Except.error`, one raised inside is converted to the structured
500 response by the handler.  Python strings are modelled as Lean `String`
(with `.data : List Char` for character-level operations such as `str.split`).
-/

/-- Model of Python's `str.split(sep)` on the character list of a string:
splitting on a single separator character, keeping empty chunks, so that
`pySplit '.' "".data = [[]]` just as `''.split('.') == ['']` in Python. -/
def pySplit (sep : Char) : List Char → List (List Char)
  | [] => [[]]
  | c :: cs =>
    if c = sep then [] :: pySplit sep cs
    else
      match pySplit sep cs with
      | [] => [[c]]
      | h :: t => (c :: h) :: t

/-- Model of `os.path.basename`: the final path component after the last slash. -/
def pyBasename (p : String) : String :=
  String.mk ((pySplit '/' p.data).getLastD [])

/-- A staged S3 object: key, last-modified stamp (assigned by the store on
write) and byte payload (modelled as a string of bytes). -/
structure S3Obj where
  key : String
  lastModified : Nat
  body : String
deriving Repr, DecidableEq

/-- Model of `s3_client.put_object`: a durable write that overwrites any
existing object with the same key. -/
def put_object (stage : List S3Obj) (key : String) (body : String) (lm : Nat) : List S3Obj :=
  stage.filter (fun o => !(o.key == key)) ++ [⟨key, lm, body⟩]

/-- Model of `s3_client.get_object(...)['Body'].read()`: the payload of the
object stored under `key`, if any. -/
def get_object (stage : List S3Obj) (key : String) : Option String :=
  (stage.find? (fun o => o.key == key)).map S3Obj.body

/-- Model of `s3_client.list_objects_v2(Bucket=..., Prefix=pfx)`: the staged
objects whose key starts with `pfx`.  An empty result corresponds to a boto3
response without a `Contents` entry. -/
def list_objects_v2 (stage : List S3Obj) (pfx : String) : List S3Obj :=
  stage.filter (fun o => pfx.data.isPrefixOf o.key.data)

/-- Model of Python's `max(contents, key=lambda x: x['LastModified'])` on a
non-empty list `x :: xs`: the first element attaining the maximal
last-modified time (Python's `max` keeps the earlier element on ties). -/
def maxByLastModified (x : S3Obj) (xs : List S3Obj) : S3Obj :=
  xs.foldl (fun acc y => if acc.lastModified < y.lastModified then y else acc) x

/-- The in-memory table produced by `pd.read_csv`. -/
structure DataFrame where
  columns : List String
  rows : List (List String)
deriving Repr, DecidableEq

/-- The relational sink's table as written by `df.to_sql(..., if_exists='replace')`. -/
structure SinkTable where
  tableName : String
  columns : List String
  rows : List (List String)
deriving Repr, DecidableEq

/-- The non-blank lines of a payload (pandas skips blank lines when parsing). -/
def csvLines (s : String) : List String :=
  ((pySplit '\n' s.data).map String.mk).filter (fun l => !(l == ""))

/-- Model of `pd.read_csv` on an in-memory byte payload: the first non-blank
line is the header, every further non-blank line is a data row, each split
on the comma delimiter; an empty payload raises (pandas `EmptyDataError`). -/
def read_csv (s : String) : Except String DataFrame :=
  match csvLines s with
  | [] => .error "No columns to parse from file"
  | h :: rest =>
    .ok ⟨(pySplit ',' h.data).map String.mk,
         rest.map (fun l => (pySplit ',' l.data).map String.mk)⟩

/-- The structured JSON response of an endpoint: HTTP status code, `status`
field, `message` field, and the optional `s3_path` / `rows_loaded` fields. -/
structure HttpResp where
  statusCode : Nat
  status : String
  message : String
  s3Path : Option String
  rowsLoaded : Option Nat
deriving Repr, DecidableEq

/-- The fixed sink table name `RAW_TABLE_NAME` of `load_raw_to_db`. -/
def RAW_TABLE_NAME : String := "heart_disease_raw"

/-- The stage key derived by `upload_data` (main.py lines 33–36) from the
supplied filename and the upload timestamp:
`raw_data/{filename.split('.')[0]}_{timestamp}.{filename.split('.')[-1]}`. -/
def uploadKey (filename : String) (timestamp : Nat) : String :=
  "raw_data/" ++ String.mk ((pySplit '.' filename.data).headD []) ++ "_" ++
    toString timestamp ++ "." ++ String.mk ((pySplit '.' filename.data).getLastD [])

/-- The stage key derived by `ingest_kaggle_data` (main.py line 89) from the
selected local file path and the timestamp:
`raw_data/{basename(path).split('.')[0]}_{timestamp}.csv`. -/
def ingestKey (localFilePath : String) (timestamp : Nat) : String :=
  "raw_data/" ++ String.mk ((pySplit '.' (pyBasename localFilePath).data).headD []) ++ "_" ++
    toString timestamp ++ ".csv"

/-- Embedding of `upload_data` (main.py lines 27–58).
`clientRes` is the outcome of `get_s3_client()` (line 30, outside the `try`);
`readRes` is the outcome of `await file.read()` (line 39, inside the `try`);
`putFault` injects an exception into `put_object` (lines 41–45, inside the
`try`); `putLM` is the last-modified stamp the store assigns to the write.
The result is `Except.error e` when an exception escapes the handler. -/
def upload_data (clientRes : Except String Unit) (filename : String) (timestamp : Nat)
    (readRes : Except String String) (putFault : Option String)
    (bucket_name : String) (stage : List S3Obj) (putLM : Nat) :
    Except String (HttpResp × List S3Obj) :=
  match clientRes with
  | .error e => .error e
  | .ok _ =>
    match readRes with
    | .error e =>
      .ok (⟨500, "erro", "Falha no upload para o S3: " ++ e, none, none⟩, stage)
    | .ok file_content =>
      match putFault with
      | some e =>
        .ok (⟨500, "erro", "Falha no upload para o S3: " ++ e, none, none⟩, stage)
      | none =>
        .ok (⟨200, "sucesso", "Dados brutos carregados para o S3 via upload manual.",
              some ("s3://" ++ bucket_name ++ "/" ++ uploadKey filename timestamp), none⟩,
             put_object stage (uploadKey filename timestamp) file_content putLM)

/-- The full outcome of one `ingest_kaggle_data` invocation: the response (or
an escaped exception), the stage afterwards, how many times `shutil.rmtree`
was invoked on the ephemeral directory, and whether that directory still
exists when the operation returns. -/
structure IngestOutcome where
  result : Except String HttpResp
  stage : List S3Obj
  cleanupCalls : Nat
  dirExistsAfter : Bool
deriving Repr

/-- Embedding of `ingest_kaggle_data` (main.py lines 62–116).
`clientRes` models `get_s3_client()` (line 68, outside the `try`);
`downloadRes` models `kagglehub.dataset_download` (line 77) yielding the
ephemeral directory path; `csv_files` models `glob.glob(f"{path}/*.csv")`
(line 80) in filesystem enumeration order; `readRes` models reading the
selected local file (lines 92–93); `putFault` injects an exception into the
stage write (lines 95–99); `dirExists` models `os.path.exists(path_to_dir)`
at cleanup time (line 115); `rmtreeFault` injects an error into
`shutil.rmtree` — suppressed because of `ignore_errors=True` (line 116). -/
def ingest_kaggle_data (clientRes : Except String Unit)
    (downloadRes : Except String String) (csv_files : List String)
    (readRes : Except String String) (putFault : Option String) (timestamp : Nat)
    (dirExists : Bool) (rmtreeFault : Option String)
    (bucket_name : String) (stage : List S3Obj) (putLM : Nat) : IngestOutcome :=
  match clientRes with
  | .error e => ⟨.error e, stage, 0, dirExists⟩
  | .ok _ =>
    let body : Except String HttpResp × Option String × List S3Obj :=
      match downloadRes with
      | .error e => (.error e, none, stage)
      | .ok path_to_dir =>
        match csv_files with
        | [] => (.error "Nenhum arquivo CSV principal encontrado no download do Kaggle.",
                 some path_to_dir, stage)
        | local_file_path :: _ =>
          match readRes with
          | .error e => (.error e, some path_to_dir, stage)
          | .ok file_content =>
            match putFault with
            | some e => (.error e, some path_to_dir, stage)
            | none =>
              (.ok ⟨200, "sucesso",
                 "Dataset 'sid321axn/heart-statlog-cleveland-hungary-final' baixado do Kaggle e armazenado no S3.",
                 some ("s3://" ++ bucket_name ++ "/" ++ ingestKey local_file_path timestamp), none⟩,
               some path_to_dir,
               put_object stage (ingestKey local_file_path timestamp) file_content putLM)
    let handled : HttpResp :=
      match body.1 with
      | .error e => ⟨500, "erro", "Falha na ingestão do Kaggle: " ++ e, none, none⟩
      | .ok r => r
    let doClean := body.2.1.isSome && dirExists
    ⟨.ok handled, body.2.2, if doClean then 1 else 0,
     if doClean && rmtreeFault.isNone then false else dirExists⟩

/-- Embedding of `load_raw_to_db` (main.py lines 122–171).
`clientRes` models `get_s3_client()` (line 125, outside the `try`);
`listFault`, `getFault`, `engineFault`, `toSqlFault` inject exceptions into
`list_objects_v2` (line 139), `get_object` (line 148), `create_engine`
(line 153) and `df.to_sql` (lines 154–159).  `sink` is the current state of
the relational table; on success it is fully replaced by the parsed frame. -/
def load_raw_to_db (clientRes : Except String Unit)
    (listFault getFault engineFault toSqlFault : Option String)
    (bucket_name : String) (stage : List S3Obj) (sink : Option SinkTable) :
    Except String (HttpResp × Option SinkTable) :=
  match clientRes with
  | .error e => .error e
  | .ok _ =>
    match listFault with
    | some e => .ok (⟨500, "erro", "Falha na estruturação (S3 -> DB): " ++ e, none, none⟩, sink)
    | none =>
      match list_objects_v2 stage "raw_data/" with
      | [] => .ok (⟨404, "erro", "Nenhum arquivo encontrado no S3.", none, none⟩, sink)
      | c :: cs =>
        match getFault with
        | some e => .ok (⟨500, "erro", "Falha na estruturação (S3 -> DB): " ++ e, none, none⟩, sink)
        | none =>
          match get_object stage (maxByLastModified c cs).key with
          | none => .ok (⟨500, "erro",
              "Falha na estruturação (S3 -> DB): NoSuchKey", none, none⟩, sink)
          | some bodyStr =>
            match read_csv bodyStr with
            | .error e =>
              .ok (⟨500, "erro", "Falha na estruturação (S3 -> DB): " ++ e, none, none⟩, sink)
            | .ok df_raw =>
              match engineFault with
              | some e =>
                .ok (⟨500, "erro", "Falha na estruturação (S3 -> DB): " ++ e, none, none⟩, sink)
              | none =>
                match toSqlFault with
                | some e =>
                  .ok (⟨500, "erro", "Falha na estruturação (S3 -> DB): " ++ e, none, none⟩, sink)
                | none =>
                  .ok (⟨200, "sucesso",
                        "Dados brutos do S3 carregados para PostgreSQL na tabela: " ++ RAW_TABLE_NAME,
                        none, some df_raw.rows.length⟩,
                       some ⟨RAW_TABLE_NAME, df_raw.columns, df_raw.rows⟩)

/-! Helper lemmas. -/

/-- The split of a character list is never the empty list of chunks. -/
theorem pySplit_ne_nil (sep : Char) (l : List Char) : pySplit sep l ≠ [] := by
  induction l with
  | nil => simp [pySplit]
  | cons c cs ih =>
    by_cases h : c = sep
    · simp [pySplit, h]
    · simp only [pySplit, if_neg h]
      cases hr : pySplit sep cs with
      | nil => simp
      | cons a b => simp

/-- Splitting a list that does not contain the separator yields the single
chunk consisting of the whole list. -/
theorem pySplit_of_not_mem (sep : Char) (l : List Char) (h : sep ∉ l) :
    pySplit sep l = [l] := by
  induction l with
  | nil => rfl
  | cons c cs ih =>
    have hc : c ≠ sep := fun hc => h (hc ▸ List.mem_cons_self c cs)
    have hcs : sep ∉ cs := fun hm => h (List.mem_cons_of_mem c hm)
    simp [pySplit, if_neg hc, ih hcs]

/-- Splitting distributes over a separator occurrence: the chunks of
`l ++ sep :: r` are the chunks of `l` followed by the chunks of `r`. -/
theorem pySplit_append_sep (sep : Char) (l r : List Char) :
    pySplit sep (l ++ sep :: r) = pySplit sep l ++ pySplit sep r := by
  induction l with
  | nil => simp [pySplit]
  | cons c cs ih =>
    by_cases h : c = sep
    · simp [pySplit, h, ih]
    · simp only [List.cons_append, pySplit, if_neg h, List.append_eq]
      rw [ih]
      cases hr : pySplit sep cs with
      | nil => exact absurd hr (pySplit_ne_nil sep cs)
      | cons a b => simp

/-- A list is a Boolean prefix of itself followed by anything. -/
theorem isPrefixOf_self_append (l t : List Char) : l.isPrefixOf (l ++ t) = true := by
  induction l with
  | nil => simp [List.isPrefixOf]
  | cons c cs ih => simp [List.isPrefixOf, ih]

/-- Reading back the key just written by `put_object` returns exactly the
written payload (S3 overwrite semantics: the fresh object shadows any
previous object with the same key). -/
theorem get_object_put_object (stage : List S3Obj) (k body : String) (lm : Nat) :
    get_object (put_object stage k body lm) k = some body := by
  unfold get_object put_object
  rw [List.find?_append]
  have hleft : (stage.filter (fun o => !(o.key == k))).find? (fun o => o.key == k) = none := by
    apply List.find?_eq_none.2
    intro o ho
    have := (List.mem_filter.1 ho).2
    simpa using this
  rw [hleft]
  simp [List.find?]

/-- The object selected by `maxByLastModified` is one of the listed objects. -/
theorem maxByLastModified_mem (x : S3Obj) (xs : List S3Obj) :
    maxByLastModified x xs ∈ x :: xs := by
  induction xs generalizing x with
  | nil => simp [maxByLastModified]
  | cons y ys ih =>
    have h := ih (if x.lastModified < y.lastModified then y else x)
    unfold maxByLastModified at h ⊢
    simp only [List.foldl_cons]
    rcases List.mem_cons.1 h with h1 | h1
    · rw [h1]
      by_cases hxy : x.lastModified < y.lastModified
      · simp [hxy]
      · simp [hxy]
    · simp [h1]

/-- Every listed object's last-modified time is bounded by that of the object
selected by `maxByLastModified`. -/
theorem maxByLastModified_le (x : S3Obj) (xs : List S3Obj) :
    ∀ o ∈ x :: xs, o.lastModified ≤ (maxByLastModified x xs).lastModified := by
  induction xs generalizing x with
  | nil =>
    intro o ho
    rcases List.mem_cons.1 ho with h | h
    · rw [h]; exact Nat.le_refl _
    · exact absurd h (List.not_mem_nil o)
  | cons y ys ih =>
    intro o ho
    have step : maxByLastModified x (y :: ys)
        = maxByLastModified (if x.lastModified < y.lastModified then y else x) ys := by
      unfold maxByLastModified
      simp [List.foldl_cons]
    have hx : x.lastModified ≤ (if x.lastModified < y.lastModified then y else x).lastModified := by
      by_cases hxy : x.lastModified < y.lastModified
      · simp [hxy]; omega
      · simp [hxy]
    have hy : y.lastModified ≤ (if x.lastModified < y.lastModified then y else x).lastModified := by
      by_cases hxy : x.lastModified < y.lastModified
      · simp [hxy]
      · simp [hxy]; omega
    have hsel := ih (if x.lastModified < y.lastModified then y else x)
        (if x.lastModified < y.lastModified then y else x)
        (List.mem_cons_self _ _)
    rcases List.mem_cons.1 ho with h | h
    · rw [step]; exact Nat.le_trans (h ▸ hx) hsel
    · rcases List.mem_cons.1 h with h2 | h2
      · rw [step]; exact Nat.le_trans (h2 ▸ hy) hsel
      · rw [step]; exact ih _ o (List.mem_cons_of_mem _ h2)

/-- In a stage whose keys are pairwise distinct, looking up the key of a
member object finds exactly that object. -/
theorem find?_key_of_nodup (stage : List S3Obj) (m : S3Obj)
    (hnd : (stage.map S3Obj.key).Nodup) (hm : m ∈ stage) :
    stage.find? (fun o => o.key == m.key) = some m := by
  induction stage with
  | nil => exact absurd hm (List.not_mem_nil m)
  | cons o rest ih =>
    have hnd' : (rest.map S3Obj.key).Nodup := (List.nodup_cons.1 hnd).2
    have hok : o.key ∉ rest.map S3Obj.key := (List.nodup_cons.1 hnd).1
    by_cases hkey : o.key = m.key
    · have hom : o = m := by
        rcases List.mem_cons.1 hm with h | h
        · exact h.symm
        · exact absurd (hkey ▸ List.mem_map_of_mem S3Obj.key h) hok
      simp [List.find?, hkey, hom]
    · have hbe : (o.key == m.key) = false := by
        simpa using hkey
      have hm' : m ∈ rest := by
        rcases List.mem_cons.1 hm with h | h
        · exact absurd (congrArg S3Obj.key h).symm hkey
        · exact h
      simp [List.find?, hbe, ih hnd' hm']

/-! Claim theorems. -/

/-- C5: for every supplied filename `F` and upload timestamp `T`, the upload
operation stages the payload under the key
`raw_data/{baseNameFromF}_{T}.{extensionFromF}`, where the base name is the
segment of `F` before the first dot and the extension the segment after the
last dot; the staged object under that key holds the uploaded payload. -/
theorem c5_upload_key_format (F P bucket : String) (T lm : Nat) (st : List S3Obj) :
    upload_data (.ok ()) F T (.ok P) none bucket st lm =
      .ok (⟨200, "sucesso", "Dados brutos carregados para o S3 via upload manual.",
            some ("s3://" ++ bucket ++ "/" ++ uploadKey F T), none⟩,
           put_object st (uploadKey F T) P lm) ∧
    uploadKey F T = "raw_data/" ++ String.mk ((pySplit '.' F.data).headD []) ++ "_" ++
      toString T ++ "." ++ String.mk ((pySplit '.' F.data).getLastD []) ∧
    get_object (put_object st (uploadKey F T) P lm) (uploadKey F T) = some P :=
  ⟨rfl, rfl, get_object_put_object st (uploadKey F T) P lm⟩

/-- C8: staging a payload `P` via the upload operation under the key derived
from filename `F` and then reading that key back from the Object Stage yields
exactly `P`. -/
theorem c8_upload_roundtrip (F P bucket : String) (T lm : Nat) (st : List S3Obj) :
    upload_data (.ok ()) F T (.ok P) none bucket st lm =
      .ok (⟨200, "sucesso", "Dados brutos carregados para o S3 via upload manual.",
            some ("s3://" ++ bucket ++ "/" ++ uploadKey F T), none⟩,
           put_object st (uploadKey F T) P lm) ∧
    get_object (put_object st (uploadKey F T) P lm) (uploadKey F T) = some P :=
  ⟨rfl, get_object_put_object st (uploadKey F T) P lm⟩

/-- C3: when the stage listing under the prefix `raw_data/` is empty,
`load_raw_to_db` returns the 404 not-found response (distinct from a 500
server error) and leaves the relational sink unchanged. -/
theorem c3_empty_stage_not_found (bucket : String) (stage : List S3Obj)
    (sink : Option SinkTable) (h : list_objects_v2 stage "raw_data/" = []) :
    load_raw_to_db (.ok ()) none none none none bucket stage sink =
      .ok (⟨404, "erro", "Nenhum arquivo encontrado no S3.", none, none⟩, sink) := by
  unfold load_raw_to_db
  rw [h]

/-- Witness for C3: a stage holding only an object outside the `raw_data/`
prefix makes the listing empty, and the load returns 404 leaving the sink
(here a one-row table) untouched. -/
theorem c3_witness :
    load_raw_to_db (.ok ()) none none none none "bkt"
        [⟨"other/x.csv", 1, "a\n1\n"⟩] (some ⟨"heart_disease_raw", ["a"], [["1"]]⟩) =
      .ok (⟨404, "erro", "Nenhum arquivo encontrado no S3.", none, none⟩,
           some ⟨"heart_disease_raw", ["a"], [["1"]]⟩) :=
  c3_empty_stage_not_found "bkt" [⟨"other/x.csv", 1, "a\n1\n"⟩]
    (some ⟨"heart_disease_raw", ["a"], [["1"]]⟩) (by decide)

/-- C4: whenever the ephemeral download directory was created (the download
call returned a path and the directory exists at cleanup time), deletion is
attempted exactly once before `ingest_kaggle_data` returns — on the success
path and on every failure path (no CSV found, local read failure, stage write
failure) — and an error raised by the deletion itself is suppressed: it
changes neither the operation's response nor the resulting stage. -/
theorem c4_cleanup_exactly_once (p : String) (csvs : List String)
    (rd : Except String String) (pf rf : Option String) (T lm : Nat)
    (bucket : String) (st : List S3Obj) :
    (ingest_kaggle_data (.ok ()) (.ok p) csvs rd pf T true rf bucket st lm).cleanupCalls = 1 ∧
    (ingest_kaggle_data (.ok ()) (.ok p) csvs rd pf T true rf bucket st lm).result =
      (ingest_kaggle_data (.ok ()) (.ok p) csvs rd pf T true none bucket st lm).result ∧
    (ingest_kaggle_data (.ok ()) (.ok p) csvs rd pf T true rf bucket st lm).stage =
      (ingest_kaggle_data (.ok ()) (.ok p) csvs rd pf T true none bucket st lm).stage := by
  cases csvs <;> cases rd <;> cases pf <;> simp [ingest_kaggle_data]

/-- C7: when the downloaded directory contains zero `.csv` files, the Kaggle
ingest operation returns the structured 500 error embedding the
no-CSV-found message, stages nothing, and the ephemeral directory no longer
exists afterwards (its deletion having succeeded normally); when several
files match, the first one in enumeration order is the one staged. -/
theorem c7_no_csv_error_and_first_selected (p : String) (rd : Except String String)
    (pf : Option String) (T lm : Nat) (bucket : String) (st : List S3Obj)
    (f1 : String) (rest : List String) (c : String) :
    (ingest_kaggle_data (.ok ()) (.ok p) [] rd pf T true none bucket st lm).result =
      .ok ⟨500, "erro",
        "Falha na ingestão do Kaggle: " ++
          "Nenhum arquivo CSV principal encontrado no download do Kaggle.",
        none, none⟩ ∧
    (ingest_kaggle_data (.ok ()) (.ok p) [] rd pf T true none bucket st lm).dirExistsAfter
      = false ∧
    (ingest_kaggle_data (.ok ()) (.ok p) [] rd pf T true none bucket st lm).stage = st ∧
    (ingest_kaggle_data (.ok ()) (.ok p) (f1 :: rest) (.ok c) none T true none bucket st lm).stage
      = put_object st (ingestKey f1 T) c lm :=
  ⟨rfl, rfl, rfl, rfl⟩

/-- C2 counterexample: the claim that no failure ever propagates past an
operation boundary as an unhandled fault is false for the code as written:
`get_s3_client()` is called before the `try` block in all three operations
(main.py lines 30, 68 and 125), so an exception raised there — e.g. botocore's
`InvalidRegionError`, raised at client construction for a malformed
`AWS_REGION` — escapes the handler instead of becoming a structured result. -/
theorem c2_counterexample :
    upload_data
        (.error "Provided region_name 'not a region' does not match a supported format.")
        "t.csv" 1 (.ok "a,b\n1,2\n") none "bkt" [] 1 =
      .error "Provided region_name 'not a region' does not match a supported format." ∧
    (ingest_kaggle_data
        (.error "Provided region_name 'not a region' does not match a supported format.")
        (.ok "/tmp/kagglehub") ["/tmp/kagglehub/heart.csv"] (.ok "a\n1\n") none 1 true none
        "bkt" [] 1).result =
      .error "Provided region_name 'not a region' does not match a supported format." ∧
    load_raw_to_db
        (.error "Provided region_name 'not a region' does not match a supported format.")
        none none none none "bkt" [] none =
      .error "Provided region_name 'not a region' does not match a supported format." :=
  ⟨rfl, rfl, rfl⟩

/-- C2 (amended): every failure arising inside the `try`-protected steps of
the three operations is caught and converted into the structured error
result — status `erro`, HTTP 500, message embedding the cause — and never
propagates as an unhandled fault; only a failure in the pre-`try` setup
(S3 client construction) escapes the operation boundary. -/
theorem c2_amended_failures_inside_try_are_caught
    (F bucket : String) (T lm : Nat)
    (readRes dl rd2 : Except String String)
    (pf pf2 rf lf gf ef tf : Option String)
    (csvs : List String) (de : Bool)
    (st : List S3Obj) (sink : Option SinkTable) :
    (∀ e, upload_data (.ok ()) F T readRes pf bucket st lm ≠ .error e) ∧
    (∀ e, (ingest_kaggle_data (.ok ()) dl csvs rd2 pf2 T de rf bucket st lm).result
        ≠ .error e) ∧
    (∀ e, load_raw_to_db (.ok ()) lf gf ef tf bucket st sink ≠ .error e) ∧
    (∀ e, readRes = .error e →
      upload_data (.ok ()) F T readRes pf bucket st lm =
        .ok (⟨500, "erro", "Falha no upload para o S3: " ++ e, none, none⟩, st)) ∧
    (∀ e, dl = .error e →
      (ingest_kaggle_data (.ok ()) dl csvs rd2 pf2 T de rf bucket st lm).result =
        .ok ⟨500, "erro", "Falha na ingestão do Kaggle: " ++ e, none, none⟩) ∧
    (∀ e, lf = some e →
      load_raw_to_db (.ok ()) lf gf ef tf bucket st sink =
        .ok (⟨500, "erro", "Falha na estruturação (S3 -> DB): " ++ e, none, none⟩, sink)) := by
  refine ⟨?_, ?_, ?_, ?_, ?_, ?_⟩
  · intro e h
    cases readRes <;> cases pf <;> simp [upload_data] at h
  · intro e h
    simp [ingest_kaggle_data] at h
  · intro e h
    simp only [load_raw_to_db] at h
    repeat' split at h
    all_goals simp at h
  · intro e he
    subst he
    rfl
  · intro e he
    subst he
    rfl
  · intro e he
    subst he
    rfl

/-- Witness for C2's amended theorem: a read failure inside the `try` block of
the upload operation is returned as the structured 500 response with the
cause embedded in the message. -/
theorem c2_witness :
    upload_data (.ok ()) "t.csv" 1 (.error "connection reset") none "bkt" [] 1 =
      .ok (⟨500, "erro", "Falha no upload para o S3: " ++ "connection reset",
            none, none⟩, []) :=
  (c2_amended_failures_inside_try_are_caught "t.csv" "bkt" 1 1 (.error "connection reset")
      (.ok "/tmp/d") (.ok "x") none none none none none none none ["f.csv"] true []
      none).2.2.2.1 "connection reset" rfl

/-- A string of the form `A ++ B` starts with `A` (on the character level). -/
theorem data_isPrefixOf_append (A B : String) :
    A.data.isPrefixOf (A ++ B).data = true := by
  rw [String.data_append]
  exact isPrefixOf_self_append _ _

/-- The upload stage key starts with the staging prefix `raw_data/`. -/
theorem uploadKey_starts_with_raw_data (F : String) (T : Nat) :
    ("raw_data/").data.isPrefixOf (uploadKey F T).data = true := by
  have h : uploadKey F T = "raw_data/" ++
      (String.mk ((pySplit '.' F.data).headD []) ++ ("_" ++
        (toString T ++ ("." ++ String.mk ((pySplit '.' F.data).getLastD []))))) := by
    simp [uploadKey, String.append_assoc]
  rw [h]
  exact data_isPrefixOf_append _ _

/-- The Kaggle-ingest stage key starts with the staging prefix `raw_data/`. -/
theorem ingestKey_starts_with_raw_data (f : String) (T : Nat) :
    ("raw_data/").data.isPrefixOf (ingestKey f T).data = true := by
  have h : ingestKey f T = "raw_data/" ++
      (String.mk ((pySplit '.' (pyBasename f).data).headD []) ++ ("_" ++
        (toString T ++ ".csv"))) := by
    simp [ingestKey, String.append_assoc]
  rw [h]
  exact data_isPrefixOf_append _ _

/-- The object just written by `put_object` is returned by a listing under any
prefix its key starts with. -/
theorem put_object_mem_list (st : List S3Obj) (k body pfx : String) (lm : Nat)
    (h : pfx.data.isPrefixOf k.data = true) :
    (⟨k, lm, body⟩ : S3Obj) ∈ list_objects_v2 (put_object st k body lm) pfx := by
  apply List.mem_filter.2
  refine ⟨?_, ?_⟩
  · unfold put_object
    exact List.mem_append_right _ (by simp)
  · simpa using h

/-- C9: every stage key written by either staging operation begins with the
prefix `raw_data/` — the very prefix `load_raw_to_db` lists under — so every
object staged by the system is returned by the load operation's listing and
is a candidate for selection. -/
theorem c9_staged_keys_under_load_prefix (F P bucket p c f1 : String)
    (T lm : Nat) (st : List S3Obj) (rest : List String) :
    ("raw_data/").data.isPrefixOf (uploadKey F T).data = true ∧
    ("raw_data/").data.isPrefixOf (ingestKey f1 T).data = true ∧
    upload_data (.ok ()) F T (.ok P) none bucket st lm =
      .ok (⟨200, "sucesso", "Dados brutos carregados para o S3 via upload manual.",
            some ("s3://" ++ bucket ++ "/" ++ uploadKey F T), none⟩,
           put_object st (uploadKey F T) P lm) ∧
    (ingest_kaggle_data (.ok ()) (.ok p) (f1 :: rest) (.ok c) none T true none bucket st lm).stage
      = put_object st (ingestKey f1 T) c lm ∧
    (⟨uploadKey F T, lm, P⟩ : S3Obj) ∈
      list_objects_v2 (put_object st (uploadKey F T) P lm) "raw_data/" ∧
    (⟨ingestKey f1 T, lm, c⟩ : S3Obj) ∈
      list_objects_v2 (put_object st (ingestKey f1 T) c lm) "raw_data/" :=
  ⟨uploadKey_starts_with_raw_data F T,
   ingestKey_starts_with_raw_data f1 T,
   rfl,
   rfl,
   put_object_mem_list st (uploadKey F T) P "raw_data/" lm
     (uploadKey_starts_with_raw_data F T),
   put_object_mem_list st (ingestKey f1 T) c "raw_data/" lm
     (ingestKey_starts_with_raw_data f1 T)⟩

/-- C10: when the supplied filename contains no dot, both the base name and
the extension are the whole filename, so the stage key is
`raw_data/{F}_{T}.{F}`; when it contains two or more dots, only the segment
before the first dot and the segment after the last dot appear in the key —
the middle segments are dropped. -/
theorem c10_key_from_first_and_last_segment (F : String) (T : Nat) :
    (('.' : Char) ∉ F.data →
      uploadKey F T = "raw_data/" ++ F ++ "_" ++ toString T ++ "." ++ F) ∧
    (∀ a m b : List Char, ('.' : Char) ∉ a → ('.' : Char) ∉ b →
      F.data = a ++ '.' :: (m ++ '.' :: b) →
      uploadKey F T =
        "raw_data/" ++ String.mk a ++ "_" ++ toString T ++ "." ++ String.mk b) := by
  constructor
  · intro h
    unfold uploadKey
    rw [pySplit_of_not_mem '.' F.data h]
    rfl
  · intro a m b ha hb hF
    unfold uploadKey
    rw [hF, pySplit_append_sep, pySplit_append_sep, pySplit_of_not_mem '.' a ha,
        pySplit_of_not_mem '.' b hb, ← List.append_assoc, List.getLastD_concat]
    simp

/-- Witness for C10: a dotless filename yields key `raw_data/heartcsv_7.heartcsv`;
a filename with two dots keeps only its first and last segments. -/
theorem c10_witness :
    uploadKey "heartcsv" 7 = "raw_data/heartcsv_7.heartcsv" ∧
    uploadKey "heart.v2.csv" 7 = "raw_data/heart_7.csv" := by
  constructor
  · have h := (c10_key_from_first_and_last_segment "heartcsv" 7).1 (by decide)
    rw [h]; rfl
  · have h := (c10_key_from_first_and_last_segment "heart.v2.csv" 7).2
      "heart".data "v2".data "csv".data (by decide) (by decide) (by decide)
    rw [h]; rfl

/-- C1: for every non-empty stage listing, `load_raw_to_db` selects exactly
the listed object with maximal last-modified time (Python's `max` keyed on
`LastModified`): the selected object belongs to the listing, bounds every
listed object's last-modified time, and its content is what gets parsed and
loaded — in particular with an older object A and a newer object B staged, in
either listing order, B's content is loaded and never A's. -/
theorem c1_load_selects_latest (bucket : String) (stage : List S3Obj)
    (sink : Option SinkTable) (c : S3Obj) (cs : List S3Obj) (t : DataFrame)
    (hnd : (stage.map S3Obj.key).Nodup)
    (hlist : list_objects_v2 stage "raw_data/" = c :: cs)
    (hparse : read_csv (maxByLastModified c cs).body = .ok t) :
    maxByLastModified c cs ∈ list_objects_v2 stage "raw_data/" ∧
    (∀ o ∈ list_objects_v2 stage "raw_data/",
        o.lastModified ≤ (maxByLastModified c cs).lastModified) ∧
    load_raw_to_db (.ok ()) none none none none bucket stage sink =
      .ok (⟨200, "sucesso",
            "Dados brutos do S3 carregados para PostgreSQL na tabela: " ++ RAW_TABLE_NAME,
            none, some t.rows.length⟩,
           some ⟨RAW_TABLE_NAME, t.columns, t.rows⟩) := by
  have hmem0 : maxByLastModified c cs ∈ c :: cs := maxByLastModified_mem c cs
  have hmemL : maxByLastModified c cs ∈ list_objects_v2 stage "raw_data/" := by
    rw [hlist]; exact hmem0
  have hmemStage : maxByLastModified c cs ∈ stage := by
    have h2 := hmemL
    unfold list_objects_v2 at h2
    exact (List.mem_filter.1 h2).1
  have hget : get_object stage (maxByLastModified c cs).key
      = some (maxByLastModified c cs).body := by
    unfold get_object
    rw [find?_key_of_nodup stage _ hnd hmemStage]
    rfl
  refine ⟨hmemL, ?_, ?_⟩
  · intro o ho
    rw [hlist] at ho
    exact maxByLastModified_le c cs o ho
  · simp only [load_raw_to_db, hlist, hget, hparse]

/-- Witness for C1: with A (`raw_data/a_1.csv`, last-modified 1) staged before
B (`raw_data/b_2.csv`, last-modified 2), the load operation loads B's content
(one data row `1,2` under header `x,y`), never A's. -/
theorem c1_witness :
    load_raw_to_db (.ok ()) none none none none "bkt"
        [⟨"raw_data/a_1.csv", 1, "h1,h2\n3,4\n"⟩, ⟨"raw_data/b_2.csv", 2, "x,y\n1,2\n"⟩]
        none =
      .ok (⟨200, "sucesso",
            "Dados brutos do S3 carregados para PostgreSQL na tabela: " ++ RAW_TABLE_NAME,
            none, some 1⟩,
           some ⟨RAW_TABLE_NAME, ["x", "y"], [["1", "2"]]⟩) :=
  (c1_load_selects_latest "bkt"
      [⟨"raw_data/a_1.csv", 1, "h1,h2\n3,4\n"⟩, ⟨"raw_data/b_2.csv", 2, "x,y\n1,2\n"⟩]
      none ⟨"raw_data/a_1.csv", 1, "h1,h2\n3,4\n"⟩ [⟨"raw_data/b_2.csv", 2, "x,y\n1,2\n"⟩]
      ⟨["x", "y"], [["1", "2"]]⟩ (by decide) rfl rfl).2.2

/-- C6: when the selected staged object's bytes parse as delimited tabular
data with a header row, a successful `load_raw_to_db` reports a
`rows_loaded` count equal to the number of data rows of that object — its
non-blank line count minus the header line — and the sink table holds
exactly those rows. -/
theorem c6_rows_loaded_counts_data_rows (bucket : String) (stage : List S3Obj)
    (sink : Option SinkTable) (c : S3Obj) (cs : List S3Obj) (t : DataFrame)
    (hnd : (stage.map S3Obj.key).Nodup)
    (hlist : list_objects_v2 stage "raw_data/" = c :: cs)
    (hparse : read_csv (maxByLastModified c cs).body = .ok t) :
    load_raw_to_db (.ok ()) none none none none bucket stage sink =
      .ok (⟨200, "sucesso",
            "Dados brutos do S3 carregados para PostgreSQL na tabela: " ++ RAW_TABLE_NAME,
            none, some ((csvLines (maxByLastModified c cs).body).length - 1)⟩,
           some ⟨RAW_TABLE_NAME, t.columns, t.rows⟩) := by
  have hrows : t.rows.length = (csvLines (maxByLastModified c cs).body).length - 1 := by
    unfold read_csv at hparse
    cases h2 : csvLines (maxByLastModified c cs).body with
    | nil => rw [h2] at hparse; exact absurd hparse (by simp)
    | cons hd rest =>
      rw [h2] at hparse
      injection hparse with h3
      rw [← h3]
      simp
  have hmem0 : maxByLastModified c cs ∈ c :: cs := maxByLastModified_mem c cs
  have hmemStage : maxByLastModified c cs ∈ stage := by
    have h2 : maxByLastModified c cs ∈ list_objects_v2 stage "raw_data/" := by
      rw [hlist]; exact hmem0
    unfold list_objects_v2 at h2
    exact (List.mem_filter.1 h2).1
  have hget : get_object stage (maxByLastModified c cs).key
      = some (maxByLastModified c cs).body := by
    unfold get_object
    rw [find?_key_of_nodup stage _ hnd hmemStage]
    rfl
  simp only [load_raw_to_db, hlist, hget, hparse, hrows]

/-- Witness for C6: the selected staged object `"x,y\n1,2\n"` has one data
row after its header, and the load reports `rows_loaded = 1`. -/
theorem c6_witness :
    load_raw_to_db (.ok ()) none none none none "bkt"
        [⟨"raw_data/b_2.csv", 2, "x,y\n1,2\n"⟩] none =
      .ok (⟨200, "sucesso",
            "Dados brutos do S3 carregados para PostgreSQL na tabela: " ++ RAW_TABLE_NAME,
            none, some ((csvLines "x,y\n1,2\n").length - 1)⟩,
           some ⟨RAW_TABLE_NAME, ["x", "y"], [["1", "2"]]⟩) :=
  c6_rows_loaded_counts_data_rows "bkt" [⟨"raw_data/b_2.csv", 2, "x,y\n1,2\n"⟩] none
    ⟨"raw_data/b_2.csv", 2, "x,y\n1,2\n"⟩ [] ⟨["x", "y"], [["1", "2"]]⟩
    (by decide) rfl rfl
